import Mathlib

/-!
Verification of `src/django_paddle_billing/admin.py`.

The admin module defines display helpers that unwrap nested JSON payloads
(`obj.data`) of billing records, permission hooks driven by the
`ADMIN_READONLY` setting, and an import-time choice of UI widget classes
based on `INSTALLED_APPS`.

Embedding conventions:
* JSON payloads decoded into Python values are modelled by `PyVal`.
  Python `None` and JSON `null` are both `PyVal.vNone`.
* Operations that can raise (`dict` subscripting, `int()` conversion,
  attribute access on non-dicts) return `Except PyErr PyVal`; a helper's
  result is `.error e` exactly when the Python method propagates an
  exception.
* Python floats are modelled as exact unnormalised fractions
  (`PyFloat`).  The only floats this module produces are
  `int(...) / 100`, small multiples of 1/100, for which IEEE-754 double
  arithmetic and Python's shortest round-trip `repr` coincide with the
  exact decimal rendered by `floatStr`.
* The product table queried by `TransactionAdmin.products` is modelled as
  a list of `ProductRec` (Django model rows, in table order).
-/

/-- A Python float, kept as an exact unnormalised fraction `num / den`.
The only floats this module produces are `int(...) / 100`, small
multiples of 1/100, for which IEEE-754 double arithmetic and Python's
shortest round-trip `repr` coincide with the exact decimal. -/
structure PyFloat where
  num : Int
  den : Nat
  deriving DecidableEq

/-- The rational value of a Python float. -/
def PyFloat.val (f : PyFloat) : Rat :=
  (f.num : Rat) / (f.den : Rat)

/-- A Python value as decoded from a JSON document (plus floats, which
arise from `int(...) / 100` in the admin helpers). -/
inductive PyVal where
  | vNone : PyVal
  | vBool : Bool → PyVal
  | vInt : Int → PyVal
  | vFloat : PyFloat → PyVal
  | vStr : String → PyVal
  | vList : List PyVal → PyVal
  | vDict : List (String × PyVal) → PyVal

/-- Python exception classes that the admin helpers can raise. -/
inductive PyErr where
  | keyError : PyErr
  | indexError : PyErr
  | attributeError : PyErr
  | typeError : PyErr
  | valueError : PyErr
  deriving DecidableEq

/-- Python truthiness of a value (`bool(v)`). -/
def PyVal.truthy : PyVal → Bool
  | .vNone => false
  | .vBool b => b
  | .vInt n => n != 0
  | .vFloat f => f.num != 0
  | .vStr s => s != ""
  | .vList xs => !xs.isEmpty
  | .vDict d => !d.isEmpty

/-- Whether a Python value is a `str`. -/
def PyVal.isStr : PyVal → Bool
  | .vStr _ => true
  | _ => false

/-- The rational value of a Python value when it is a float. -/
def PyVal.floatVal : PyVal → Option Rat
  | .vFloat f => some f.val
  | _ => none

/-- An apostrophe (Python's default string quote in `repr`). -/
def pyQuote : String := String.singleton (Char.ofNat 39)

/-- Decimal rendering of a Python float, exact when `100 * f` is an
integer (the only floats produced by this module); models the shortest
round-trip `repr`/`str` Python prints for such values, which always shows
at least one fractional digit (`str(19.0) = "19.0"`). -/
def floatStr (f : PyFloat) : String :=
  let cents : Int := f.num * 100 / (f.den : Int)
  let sign := if cents < 0 then "-" else ""
  let a := cents.natAbs
  let i := a / 100
  let r := a % 100
  let frac :=
    if r = 0 then "0"
    else if r % 10 = 0 then toString (r / 10)
    else if r < 10 then "0" ++ toString r
    else toString r
  sign ++ toString i ++ "." ++ frac

mutual

/-- Python `repr` of a value (string escaping omitted: the admin module
never feeds strings containing quotes through `repr`). -/
def pyRepr : PyVal → String
  | .vNone => "None"
  | .vBool true => "True"
  | .vBool false => "False"
  | .vInt n => toString n
  | .vFloat f => floatStr f
  | .vStr s => pyQuote ++ s ++ pyQuote
  | .vList xs => "[" ++ pyReprList xs ++ "]"
  | .vDict d => "\x7b" ++ pyReprPairs d ++ "\x7d"

/-- `repr` of the elements of a list, comma separated. -/
def pyReprList : List PyVal → String
  | [] => ""
  | [x] => pyRepr x
  | x :: xs => pyRepr x ++ ", " ++ pyReprList xs

/-- `repr` of the entries of a dict, comma separated. -/
def pyReprPairs : List (String × PyVal) → String
  | [] => ""
  | [(k, v)] => pyQuote ++ k ++ pyQuote ++ ": " ++ pyRepr v
  | (k, v) :: ps => pyQuote ++ k ++ pyQuote ++ ": " ++ pyRepr v ++ ", " ++ pyReprPairs ps

end

/-- Python `str(v)`, as an f-string interpolation `f"{v}"` computes it:
identity on strings, `repr` otherwise. -/
def pyStr : PyVal → String
  | .vStr s => s
  | v => pyRepr v

/-- Python `int(v)` on a string: strips surrounding whitespace, accepts
an optional sign followed by digits, raises `ValueError` otherwise
(underscore separators are not modelled; the payloads in scope never use
them).  Characters 45 and 43 are the minus and plus signs. -/
def parseIntStr (s : String) : Option Int :=
  let t := ((s.toList.dropWhile Char.isWhitespace).reverse.dropWhile
    Char.isWhitespace).reverse
  let neg := t.head? = some (Char.ofNat 45)
  let ds := match t with
    | c :: rest => if c = Char.ofNat 45 || c = Char.ofNat 43 then rest else t
    | [] => t
  if !ds.isEmpty && ds.all Char.isDigit then
    let n : Nat := ds.foldl (fun acc c => acc * 10 + (c.toNat - 48)) 0
    some (if neg then -(n : Int) else (n : Int))
  else none

/-- Python `int(v)`: parses strings, truncates floats toward zero,
converts bools, raises `TypeError` on `None`, lists and dicts. -/
def pyInt : PyVal → Except PyErr Int
  | .vStr s =>
    match parseIntStr s with
    | some n => .ok n
    | none => .error .valueError
  | .vInt n => .ok n
  | .vBool b => .ok (if b then 1 else 0)
  | .vFloat f => .ok (Int.tdiv f.num (f.den : Int))
  | .vNone => .error .typeError
  | .vList _ => .error .typeError
  | .vDict _ => .error .typeError

/-- Python `v.get(k, dflt)`: defined on dicts only; on any other decoded
JSON value the attribute lookup `.get` raises `AttributeError`. -/
def PyVal.get (v : PyVal) (k : String) (dflt : PyVal) : Except PyErr PyVal :=
  match v with
  | .vDict d =>
    match d.find? (fun p => p.1 == k) with
    | some p => .ok p.2
    | none => .ok dflt
  | _ => .error .attributeError

/-- Python subscripting `v[k]`: dict lookup by string key (`KeyError` when
missing, and a non-string key never matches our string-keyed dicts), list
indexing with Python's negative-index convention (`IndexError` out of
range), string indexing, `TypeError` otherwise. -/
def PyVal.getItem : PyVal → PyVal → Except PyErr PyVal
  | .vDict d, .vStr k =>
    match d.find? (fun p => p.1 == k) with
    | some p => .ok p.2
    | none => .error .keyError
  | .vDict _, .vList _ => .error .typeError
  | .vDict _, .vDict _ => .error .typeError
  | .vDict _, _ => .error .keyError
  | .vList xs, .vInt i =>
    if h : 0 ≤ i ∧ i.toNat < xs.length then .ok (xs.get ⟨i.toNat, h.2⟩)
    else if h' : 0 ≤ i + xs.length ∧ i < 0 then
      .ok (xs.get ⟨(i + xs.length).toNat, by omega⟩)
    else .error .indexError
  | .vList _, _ => .error .typeError
  | .vStr s, .vInt i =>
    if 0 ≤ i ∧ i.toNat < s.length then .ok (.vStr (String.singleton (s.get ⟨i.toNat⟩)))
    else .error .indexError
  | _, _ => .error .typeError

/-- Chained subscripting `v[k1][k2]...`, propagating the first error. -/
def getPath (v : PyVal) : List PyVal → Except PyErr PyVal
  | [] => .ok v
  | k :: ks =>
    match v.getItem k with
    | .error e => .error e
    | .ok v' => getPath v' ks

/-- A `try: ... except Exception: return dflt` wrapper. -/
def tryOr (x : Except PyErr PyVal) (dflt : PyVal) : PyVal :=
  match x with
  | .ok v => v
  | .error _ => dflt

/-- Python iteration over a decoded JSON value (`for item in v`): list
elements, string characters, dict keys; `TypeError` otherwise. -/
def pyIter : PyVal → Except PyErr (List PyVal)
  | .vList xs => .ok xs
  | .vStr s => .ok (s.toList.map (fun c => .vStr (String.singleton c)))
  | .vDict d => .ok (d.map (fun p => .vStr p.1))
  | _ => .error .typeError

/-- The related `Customer` row reachable through a foreign key
(`obj.customer`); only its `email` field is read by the helpers. -/
structure CustomerRec where
  email : String

/-- A row of the `Product` table; `TransactionAdmin.products` reads the
`id` and `name` model fields. -/
structure ProductRec where
  id : String
  name : String

/-- A billing record as the display helpers see it: the JSON payload
`data` (`vNone` models a NULL column) and the nullable `customer`
foreign key. -/
structure DBObj where
  data : PyVal
  customer : Option CustomerRec

/-- An incoming HTTP request; the permission hooks ignore it entirely, it
is carried only to mirror their signature. -/
structure Request where
  path : String

namespace AddressAdmin

/-- `AddressAdmin.has_change_permission`: returns the `ADMIN_READONLY`
setting itself. -/
def has_change_permission (adminReadonly : Bool) (_request : Request)
    (_obj : Option DBObj) : Bool :=
  adminReadonly

/-- `AddressAdmin.customer_email`. -/
def customer_email (obj : Option DBObj) : Except PyErr PyVal :=
  match obj with
  | none => .ok (.vStr "")
  | some o =>
    match o.customer with
    | some c => .ok (.vStr c.email)
    | none => .ok (.vStr "")

/-- `AddressAdmin.postal_code`. -/
def postal_code (obj : Option DBObj) : Except PyErr PyVal :=
  match obj with
  | none => .ok (.vStr "")
  | some o =>
    if o.data.truthy then o.data.get "postal_code" (.vStr "")
    else .ok (.vStr "")

/-- `AddressAdmin.status`. -/
def status (obj : Option DBObj) : Except PyErr PyVal :=
  match obj with
  | none => .ok (.vStr "")
  | some o =>
    if o.data.truthy then o.data.get "status" (.vStr "")
    else .ok (.vStr "")

end AddressAdmin

namespace BusinessAdmin

/-- `BusinessAdmin.has_change_permission`: negation of `ADMIN_READONLY`. -/
def has_change_permission (adminReadonly : Bool) (_request : Request)
    (_obj : Option DBObj) : Bool :=
  !adminReadonly

end BusinessAdmin

namespace ProductAdmin

/-- `ProductAdmin.has_change_permission`: negation of `ADMIN_READONLY`. -/
def has_change_permission (adminReadonly : Bool) (_request : Request)
    (_obj : Option DBObj) : Bool :=
  !adminReadonly

end ProductAdmin

namespace PriceAdmin

/-- `PriceAdmin.has_change_permission`: negation of `ADMIN_READONLY`. -/
def has_change_permission (adminReadonly : Bool) (_request : Request)
    (_obj : Option DBObj) : Bool :=
  !adminReadonly

/-- `PriceAdmin.billing_cycle`: guarded by
`obj and obj.data and obj.data.get("billing_cycle")`, then interpolates
`obj.data["billing_cycle"]["frequency"]` and
`obj.data["billing_cycle"]["interval"]` with no exception handler. -/
def billing_cycle (obj : Option DBObj) : Except PyErr PyVal :=
  match obj with
  | none => .ok (.vStr "")
  | some o =>
    if o.data.truthy then
      match o.data.get "billing_cycle" .vNone with
      | .error e => .error e
      | .ok bc =>
        if bc.truthy then
          match getPath o.data [.vStr "billing_cycle", .vStr "frequency"] with
          | .error e => .error e
          | .ok f =>
            match getPath o.data [.vStr "billing_cycle", .vStr "interval"] with
            | .error e => .error e
            | .ok i => .ok (.vStr (pyStr f ++ " " ++ pyStr i))
        else .ok (.vStr "")
    else .ok (.vStr "")

/-- `PriceAdmin.description`: no fall-through `return`, so Python returns
`None` when the guard fails. -/
def description (obj : Option DBObj) : Except PyErr PyVal :=
  match obj with
  | none => .ok .vNone
  | some o =>
    if o.data.truthy then o.data.get "description" (.vStr "")
    else .ok .vNone

/-- `PriceAdmin.name`: no fall-through `return`, so Python returns `None`
when the guard fails. -/
def name (obj : Option DBObj) : Except PyErr PyVal :=
  match obj with
  | none => .ok .vNone
  | some o =>
    if o.data.truthy then o.data.get "name" (.vStr "")
    else .ok .vNone

/-- `PriceAdmin.status`: no fall-through `return`, so Python returns
`None` when the guard fails. -/
def status (obj : Option DBObj) : Except PyErr PyVal :=
  match obj with
  | none => .ok .vNone
  | some o =>
    if o.data.truthy then o.data.get "status" (.vStr "")
    else .ok .vNone

/-- `PriceAdmin.trial_period`: same shape as `billing_cycle`. -/
def trial_period (obj : Option DBObj) : Except PyErr PyVal :=
  match obj with
  | none => .ok (.vStr "")
  | some o =>
    if o.data.truthy then
      match o.data.get "trial_period" .vNone with
      | .error e => .error e
      | .ok tp =>
        if tp.truthy then
          match getPath o.data [.vStr "trial_period", .vStr "frequency"] with
          | .error e => .error e
          | .ok f =>
            match getPath o.data [.vStr "trial_period", .vStr "interval"] with
            | .error e => .error e
            | .ok i => .ok (.vStr (pyStr f ++ " " ++ pyStr i))
        else .ok (.vStr "")
    else .ok (.vStr "")

/-- `PriceAdmin.unit_price`: guarded by
`obj and obj.data and obj.data.get("unit_price")`, then interpolates
`int(obj.data["unit_price"]["amount"]) / 100` and
`obj.data["unit_price"]["currency_code"]` with no exception handler. -/
def unit_price (obj : Option DBObj) : Except PyErr PyVal :=
  match obj with
  | none => .ok (.vStr "")
  | some o =>
    if o.data.truthy then
      match o.data.get "unit_price" .vNone with
      | .error e => .error e
      | .ok up =>
        if up.truthy then
          match getPath o.data [.vStr "unit_price", .vStr "amount"] with
          | .error e => .error e
          | .ok a =>
            match pyInt a with
            | .error e => .error e
            | .ok n =>
              match getPath o.data [.vStr "unit_price", .vStr "currency_code"] with
              | .error e => .error e
              | .ok c =>
                .ok (.vStr (pyStr (.vFloat ⟨n, 100⟩) ++ " " ++ pyStr c))
        else .ok (.vStr "")
    else .ok (.vStr "")

end PriceAdmin

namespace SubscriptionAdmin

/-- `SubscriptionAdmin.has_change_permission`: negation of
`ADMIN_READONLY`. -/
def has_change_permission (adminReadonly : Bool) (_request : Request)
    (_obj : Option DBObj) : Bool :=
  !adminReadonly

end SubscriptionAdmin

namespace CustomerAdmin

/-- `CustomerAdmin.has_change_permission`: negation of `ADMIN_READONLY`. -/
def has_change_permission (adminReadonly : Bool) (_request : Request)
    (_obj : Option DBObj) : Bool :=
  !adminReadonly

/-- `CustomerAdmin.status`: no fall-through `return`, so Python returns
`None` when the guard fails. -/
def status (obj : Option DBObj) : Except PyErr PyVal :=
  match obj with
  | none => .ok .vNone
  | some o =>
    if o.data.truthy then o.data.get "status" (.vStr "")
    else .ok .vNone

end CustomerAdmin

namespace TransactionAdmin

/-- `TransactionAdmin.has_change_permission`: negation of
`ADMIN_READONLY`. -/
def has_change_permission (adminReadonly : Bool) (_request : Request)
    (_obj : Option DBObj) : Bool :=
  !adminReadonly

/-- `TransactionAdmin.customer_email`. -/
def customer_email (obj : Option DBObj) : Except PyErr PyVal :=
  match obj with
  | none => .ok (.vStr "")
  | some o =>
    match o.customer with
    | some c => .ok (.vStr c.email)
    | none => .ok (.vStr "")

/-- `TransactionAdmin.payment_amount`:
`int(obj.data["details"]["totals"]["total"]) / 100` inside
`try/except Exception`, returning `""` on any error; the success value is
a float, returned unformatted. -/
def payment_amount (obj : Option DBObj) : Except PyErr PyVal :=
  match obj with
  | none => .ok (.vStr "")
  | some o =>
    if o.data.truthy then
      .ok (tryOr
        (match getPath o.data [.vStr "details", .vStr "totals", .vStr "total"] with
         | .error e => .error e
         | .ok t =>
           match pyInt t with
           | .error e => .error e
           | .ok n => .ok (.vFloat ⟨n, 100⟩))
        (.vStr ""))
    else .ok (.vStr "")

/-- `TransactionAdmin.payment_method`: interpolates
`obj.data["payments"][0]["method_details"]["card"]["type"]` and the
matching `["last4"]` inside `try/except Exception`. -/
def payment_method (obj : Option DBObj) : Except PyErr PyVal :=
  match obj with
  | none => .ok (.vStr "")
  | some o =>
    if o.data.truthy then
      .ok (tryOr
        (match getPath o.data [.vStr "payments", .vInt 0, .vStr "method_details",
            .vStr "card", .vStr "type"] with
         | .error e => .error e
         | .ok t =>
           match getPath o.data [.vStr "payments", .vInt 0, .vStr "method_details",
               .vStr "card", .vStr "last4"] with
           | .error e => .error e
           | .ok l => .ok (.vStr (pyStr t ++ " " ++ pyStr l)))
        (.vStr ""))
    else .ok (.vStr "")

/-- `TransactionAdmin.date_paid`: returns the raw
`obj.data["payments"][0]["captured_at"]` value inside
`try/except Exception`. -/
def date_paid (obj : Option DBObj) : Except PyErr PyVal :=
  match obj with
  | none => .ok (.vStr "")
  | some o =>
    if o.data.truthy then
      .ok (tryOr (getPath o.data [.vStr "payments", .vInt 0, .vStr "captured_at"])
        (.vStr ""))
    else .ok (.vStr "")

/-- The list comprehension `[item["price"]["product_id"] for item in items]`:
left to right, the first failing subscript raises. -/
def productIds : List PyVal → Except PyErr (List PyVal)
  | [] => .ok []
  | item :: rest =>
    match getPath item [.vStr "price", .vStr "product_id"] with
    | .error e => .error e
    | .ok v =>
      match productIds rest with
      | .error e => .error e
      | .ok vs => .ok (v :: vs)

/-- `TransactionAdmin.products`: collects
`item["price"]["product_id"]` over `obj.data.get("items", [])` (no
exception handler), filters the `Product` table on
`id__in=[...]` and joins the matching names with `", "`.  A stored string
id matches only an equal string in the collected list. -/
def products (db : List ProductRec) (obj : Option DBObj) : Except PyErr PyVal :=
  match obj with
  | none => .ok (.vStr "")
  | some o =>
    if o.data.truthy then
      match o.data.get "items" (.vList []) with
      | .error e => .error e
      | .ok items =>
        match pyIter items with
        | .error e => .error e
        | .ok xs =>
          match productIds xs with
          | .error e => .error e
          | .ok ids =>
            let sel := db.filter (fun p =>
              ids.any (fun v => match v with | .vStr s => s == p.id | _ => false))
            .ok (.vStr (String.intercalate ", " (sel.map (fun p => p.name))))
    else .ok (.vStr "")

/-- `TransactionAdmin.status`. -/
def status (obj : Option DBObj) : Except PyErr PyVal :=
  match obj with
  | none => .ok (.vStr "")
  | some o =>
    if o.data.truthy then o.data.get "status" (.vStr "")
    else .ok (.vStr "")

end TransactionAdmin

/-- Enumeration of every display helper defined across the admin
classes. -/
inductive Helper where
  | address_customer_email : Helper
  | address_postal_code : Helper
  | address_status : Helper
  | price_billing_cycle : Helper
  | price_description : Helper
  | price_name : Helper
  | price_status : Helper
  | price_trial_period : Helper
  | price_unit_price : Helper
  | customer_status : Helper
  | tx_customer_email : Helper
  | tx_payment_amount : Helper
  | tx_payment_method : Helper
  | tx_date_paid : Helper
  | tx_products : Helper
  | tx_status : Helper
  deriving DecidableEq

/-- Enumeration of the seven registered admin classes. -/
inductive AdminClass where
  | address : AdminClass
  | business : AdminClass
  | product : AdminClass
  | price : AdminClass
  | subscription : AdminClass
  | customer : AdminClass
  | transaction : AdminClass
  deriving DecidableEq

/-- Dispatch a display helper; only `TransactionAdmin.products` consults
the product table `db`. -/
def evalHelper (db : List ProductRec) : Helper → Option DBObj → Except PyErr PyVal
  | .address_customer_email, o => AddressAdmin.customer_email o
  | .address_postal_code, o => AddressAdmin.postal_code o
  | .address_status, o => AddressAdmin.status o
  | .price_billing_cycle, o => PriceAdmin.billing_cycle o
  | .price_description, o => PriceAdmin.description o
  | .price_name, o => PriceAdmin.name o
  | .price_status, o => PriceAdmin.status o
  | .price_trial_period, o => PriceAdmin.trial_period o
  | .price_unit_price, o => PriceAdmin.unit_price o
  | .customer_status, o => CustomerAdmin.status o
  | .tx_customer_email, o => TransactionAdmin.customer_email o
  | .tx_payment_amount, o => TransactionAdmin.payment_amount o
  | .tx_payment_method, o => TransactionAdmin.payment_method o
  | .tx_date_paid, o => TransactionAdmin.date_paid o
  | .tx_products, o => TransactionAdmin.products db o
  | .tx_status, o => TransactionAdmin.status o

/-- Dispatch `has_change_permission` per admin class. -/
def hasChangePermission (a : AdminClass) (adminReadonly : Bool)
    (request : Request) (obj : Option DBObj) : Bool :=
  match a with
  | .address => AddressAdmin.has_change_permission adminReadonly request obj
  | .business => BusinessAdmin.has_change_permission adminReadonly request obj
  | .product => ProductAdmin.has_change_permission adminReadonly request obj
  | .price => PriceAdmin.has_change_permission adminReadonly request obj
  | .subscription => SubscriptionAdmin.has_change_permission adminReadonly request obj
  | .customer => CustomerAdmin.has_change_permission adminReadonly request obj
  | .transaction => TransactionAdmin.has_change_permission adminReadonly request obj

/-- The external state a helper call can observe: the `Product` table and
the `ADMIN_READONLY` module setting. -/
structure World where
  productTable : List ProductRec
  adminReadonly : Bool

/-- A display helper run in state-passing style: the code only reads from
the world (the product table), so the outgoing world is the incoming
one. -/
def evalHelperW (h : Helper) (obj : Option DBObj) (w : World) :
    Except PyErr PyVal × World :=
  (evalHelper w.productTable h obj, w)

/-- A permission hook run in state-passing style: it only reads the
`ADMIN_READONLY` setting. -/
def hasChangePermissionW (a : AdminClass) (request : Request)
    (obj : Option DBObj) (w : World) : Bool × World :=
  (hasChangePermission a w.adminReadonly request obj, w)

/-- The two available UI-widget libraries. -/
inductive UILib where
  | unfoldLib : UILib
  | djangoDefault : UILib
  deriving DecidableEq

/-- The import-time selection of `ModelAdmin`/`StackedInline`/
`TabularInline`: `unfold`'s classes when `"unfold"` occurs in
`INSTALLED_APPS`, the framework defaults otherwise. -/
def uiChoice (installedApps : List String) : UILib :=
  if "unfold" ∈ installedApps then .unfoldLib else .djangoDefault

/-! Concrete sample records used by the theorems below. -/

/-- A transaction whose payload is
`{"details": {"totals": {"total": "1999"}}}`. -/
def txTotal1999 : DBObj :=
  ⟨.vDict [("details", .vDict [("totals", .vDict [("total", .vStr "1999")])])], none⟩

/-- A price whose `billing_cycle` sub-object is present but lacks the
`interval` key: `{"billing_cycle": {"frequency": 1}}`. -/
def priceMalformedBC : DBObj :=
  ⟨.vDict [("billing_cycle", .vDict [("frequency", .vInt 1)])], none⟩

/-- A transaction whose payload references product id `"p1"`:
`{"items": [{"price": {"product_id": "p1"}}]}`. -/
def txItemsP1 : DBObj :=
  ⟨.vDict [("items", .vList [.vDict [("price", .vDict [("product_id", .vStr "p1")])]])], none⟩

/-- Claim C2: `AddressAdmin.has_change_permission` returns `True` exactly
when `ADMIN_READONLY` is `True`, for every request and object, while the
hooks of the six other registered admin classes return `True` exactly
when `ADMIN_READONLY` is `False`: the Address admin's polarity is the
opposite of all the others. -/
theorem addressPermissionPolarityOpposite (ro : Bool) (req : Request)
    (obj : Option DBObj) :
    (AddressAdmin.has_change_permission ro req obj = true ↔ ro = true) ∧
    (BusinessAdmin.has_change_permission ro req obj = true ↔ ro = false) ∧
    (ProductAdmin.has_change_permission ro req obj = true ↔ ro = false) ∧
    (PriceAdmin.has_change_permission ro req obj = true ↔ ro = false) ∧
    (SubscriptionAdmin.has_change_permission ro req obj = true ↔ ro = false) ∧
    (CustomerAdmin.has_change_permission ro req obj = true ↔ ro = false) ∧
    (TransactionAdmin.has_change_permission ro req obj = true ↔ ro = false) := by
  cases ro <;>
    simp [AddressAdmin.has_change_permission, BusinessAdmin.has_change_permission,
      ProductAdmin.has_change_permission, PriceAdmin.has_change_permission,
      SubscriptionAdmin.has_change_permission, CustomerAdmin.has_change_permission,
      TransactionAdmin.has_change_permission]

/-- Claim C3: on every object whose `data` equals
`{"details": {"totals": {"total": "1999"}}}`,
`TransactionAdmin.payment_amount` returns the float `19.99`
(the model's float `⟨1999, 100⟩`, whose rational value is `19.99`). -/
theorem paymentAmount1999 (cust : Option CustomerRec) :
    TransactionAdmin.payment_amount (some ⟨txTotal1999.data, cust⟩) =
      .ok (.vFloat ⟨1999, 100⟩) ∧
    PyVal.floatVal (.vFloat ⟨1999, 100⟩) = some (19.99 : Rat) := by
  refine ⟨by rfl, ?_⟩
  simp [PyVal.floatVal, PyFloat.val]
  norm_num

/-- Claim C8: the import-time choice between `unfold`'s admin widget
classes and the framework defaults is a function of the installed-apps
list alone: the unfold classes are selected exactly when `"unfold"`
occurs in `INSTALLED_APPS`, the defaults exactly otherwise. -/
theorem uiChoiceByInstalledApps (apps : List String) :
    (uiChoice apps = .unfoldLib ↔ "unfold" ∈ apps) ∧
    (uiChoice apps = .djangoDefault ↔ "unfold" ∉ apps) := by
  unfold uiChoice
  by_cases h : "unfold" ∈ apps <;> simp [h]

/-- Claim C9: no display helper and no permission hook writes to any
state: run in state-passing style over the observable world (product
table and `ADMIN_READONLY` setting), every call returns the incoming
world unchanged. -/
theorem helpersMutateNothing :
    (∀ (h : Helper) (obj : Option DBObj) (w : World),
      (evalHelperW h obj w).2 = w) ∧
    (∀ (a : AdminClass) (req : Request) (obj : Option DBObj) (w : World),
      (hasChangePermissionW a req obj w).2 = w) :=
  ⟨fun _ _ _ => rfl, fun _ _ _ _ => rfl⟩

/-- `AddressAdmin.customer_email` returns normally on every input. -/
theorem address_customer_email_total (obj : Option DBObj) :
    (AddressAdmin.customer_email obj).isOk = true := by
  rcases obj with _ | ⟨d, c⟩
  · rfl
  · cases c <;> rfl

/-- `TransactionAdmin.customer_email` returns normally on every input. -/
theorem tx_customer_email_total (obj : Option DBObj) :
    (TransactionAdmin.customer_email obj).isOk = true := by
  rcases obj with _ | ⟨d, c⟩
  · rfl
  · cases c <;> rfl

/-- `TransactionAdmin.payment_amount` returns normally on every input:
its whole body sits in `try/except Exception`. -/
theorem payment_amount_total (obj : Option DBObj) :
    (TransactionAdmin.payment_amount obj).isOk = true := by
  rcases obj with _ | ⟨d, c⟩
  · rfl
  · simp only [TransactionAdmin.payment_amount]
    split <;> rfl

/-- `TransactionAdmin.payment_method` returns normally on every input. -/
theorem payment_method_total (obj : Option DBObj) :
    (TransactionAdmin.payment_method obj).isOk = true := by
  rcases obj with _ | ⟨d, c⟩
  · rfl
  · simp only [TransactionAdmin.payment_method]
    split <;> rfl

/-- `TransactionAdmin.date_paid` returns normally on every input. -/
theorem date_paid_total (obj : Option DBObj) :
    (TransactionAdmin.date_paid obj).isOk = true := by
  rcases obj with _ | ⟨d, c⟩
  · rfl
  · simp only [TransactionAdmin.date_paid]
    split <;> rfl

/-- Claim C10: every display helper called with `obj=None`, or with an
object whose `data` is `None` or empty (Python-falsy), is guarded and
returns normally: no exception is raised. -/
theorem helpersSafeOnMissingData :
    (∀ (db : List ProductRec) (h : Helper), (evalHelper db h none).isOk = true) ∧
    (∀ (db : List ProductRec) (h : Helper) (o : DBObj), o.data.truthy = false →
      (evalHelper db h (some o)).isOk = true) := by
  constructor
  · intro db h; cases h <;> rfl
  · intro db h o hf
    rcases o with ⟨d, c⟩
    replace hf : PyVal.truthy d = false := hf
    cases h <;> (try cases c) <;>
      simp [evalHelper, AddressAdmin.customer_email, AddressAdmin.postal_code,
        AddressAdmin.status, PriceAdmin.billing_cycle, PriceAdmin.description,
        PriceAdmin.name, PriceAdmin.status, PriceAdmin.trial_period,
        PriceAdmin.unit_price, CustomerAdmin.status, TransactionAdmin.customer_email,
        TransactionAdmin.payment_amount, TransactionAdmin.payment_method,
        TransactionAdmin.date_paid, TransactionAdmin.products, TransactionAdmin.status,
        hf] <;> rfl

/-- Witness for C10 at a concrete input: an object whose `data` is
`None`. -/
theorem helpersSafeOnMissingData_witness :
    (PyVal.truthy PyVal.vNone = false) ∧
    (evalHelper [] Helper.price_status (some ⟨PyVal.vNone, none⟩)).isOk = true :=
  ⟨rfl, helpersSafeOnMissingData.2 [] Helper.price_status ⟨PyVal.vNone, none⟩ rfl⟩

/-- Looking up a missing key with `.get` yields the supplied default. -/
theorem get_default_of_find_none (d : List (String × PyVal)) (k : String)
    (dflt : PyVal) (h : d.find? (fun p => p.1 == k) = none) :
    PyVal.get (.vDict d) k dflt = .ok dflt := by
  simp [PyVal.get, h]

/-- Claim C1 counterexample: on a price whose `billing_cycle` sub-object
is present but lacks the `interval` key, `PriceAdmin.billing_cycle`
propagates a `KeyError` instead of returning the empty string. -/
theorem billingCycleKeyError :
    PriceAdmin.billing_cycle (some priceMalformedBC) = .error .keyError ∧
    PriceAdmin.billing_cycle (some priceMalformedBC) ≠ .ok (.vStr "") := by
  have h : PriceAdmin.billing_cycle (some priceMalformedBC) = .error .keyError := by rfl
  refine ⟨h, ?_⟩
  rw [h]
  simp

/-- Claim C1 (amended): the `TransactionAdmin` helpers `payment_amount`,
`payment_method` and `date_paid` catch every exception and return
normally on all inputs, the two `customer_email` helpers are total, and
the `.get`-based helpers substitute their default for a missing key; but
`PriceAdmin.billing_cycle`, `trial_period`, `unit_price` and
`TransactionAdmin.products` propagate exceptions raised by a malformed
sub-object (counterexample above). -/
theorem helpersSwallowOrPropagate :
    (∀ obj, (TransactionAdmin.payment_amount obj).isOk = true) ∧
    (∀ obj, (TransactionAdmin.payment_method obj).isOk = true) ∧
    (∀ obj, (TransactionAdmin.date_paid obj).isOk = true) ∧
    (∀ obj, (AddressAdmin.customer_email obj).isOk = true) ∧
    (∀ obj, (TransactionAdmin.customer_email obj).isOk = true) ∧
    (∀ (c : Option CustomerRec) (d : List (String × PyVal)),
      d.find? (fun p => p.1 == "postal_code") = none →
      AddressAdmin.postal_code (some ⟨.vDict d, c⟩) = .ok (.vStr "")) ∧
    (∀ (c : Option CustomerRec) (d : List (String × PyVal)),
      d.find? (fun p => p.1 == "status") = none →
      AddressAdmin.status (some ⟨.vDict d, c⟩) = .ok (.vStr "")) ∧
    (∀ (c : Option CustomerRec) (d : List (String × PyVal)),
      d.find? (fun p => p.1 == "status") = none →
      TransactionAdmin.status (some ⟨.vDict d, c⟩) = .ok (.vStr "")) ∧
    (∀ (c : Option CustomerRec) (d : List (String × PyVal)), d ≠ [] →
      d.find? (fun p => p.1 == "description") = none →
      PriceAdmin.description (some ⟨.vDict d, c⟩) = .ok (.vStr "")) ∧
    (∀ (c : Option CustomerRec) (d : List (String × PyVal)), d ≠ [] →
      d.find? (fun p => p.1 == "name") = none →
      PriceAdmin.name (some ⟨.vDict d, c⟩) = .ok (.vStr "")) ∧
    (∀ (c : Option CustomerRec) (d : List (String × PyVal)), d ≠ [] →
      d.find? (fun p => p.1 == "status") = none →
      PriceAdmin.status (some ⟨.vDict d, c⟩) = .ok (.vStr "")) ∧
    (∀ (c : Option CustomerRec) (d : List (String × PyVal)), d ≠ [] →
      d.find? (fun p => p.1 == "status") = none →
      CustomerAdmin.status (some ⟨.vDict d, c⟩) = .ok (.vStr "")) := by
  refine ⟨payment_amount_total, payment_method_total, date_paid_total,
    address_customer_email_total, tx_customer_email_total, ?_, ?_, ?_, ?_, ?_, ?_, ?_⟩
  · intro c d hfind
    by_cases hd : (PyVal.vDict d).truthy <;>
      simp [AddressAdmin.postal_code, hd, get_default_of_find_none _ _ _ hfind]
  · intro c d hfind
    by_cases hd : (PyVal.vDict d).truthy <;>
      simp [AddressAdmin.status, hd, get_default_of_find_none _ _ _ hfind]
  · intro c d hfind
    by_cases hd : (PyVal.vDict d).truthy <;>
      simp [TransactionAdmin.status, hd, get_default_of_find_none _ _ _ hfind]
  · intro c d hne hfind
    have hd : (PyVal.vDict d).truthy = true := by simp [PyVal.truthy, hne]
    simp [PriceAdmin.description, hd, get_default_of_find_none _ _ _ hfind]
  · intro c d hne hfind
    have hd : (PyVal.vDict d).truthy = true := by simp [PyVal.truthy, hne]
    simp [PriceAdmin.name, hd, get_default_of_find_none _ _ _ hfind]
  · intro c d hne hfind
    have hd : (PyVal.vDict d).truthy = true := by simp [PyVal.truthy, hne]
    simp [PriceAdmin.status, hd, get_default_of_find_none _ _ _ hfind]
  · intro c d hne hfind
    have hd : (PyVal.vDict d).truthy = true := by simp [PyVal.truthy, hne]
    simp [CustomerAdmin.status, hd, get_default_of_find_none _ _ _ hfind]

/-- Witness for the amended C1 at a concrete input: a dict without the
`postal_code` key. -/
theorem helpersSwallowOrPropagate_witness :
    ([("x", PyVal.vNone)].find? (fun p => p.1 == "postal_code") = none) ∧
    AddressAdmin.postal_code (some ⟨.vDict [("x", PyVal.vNone)], none⟩) =
      .ok (.vStr "") :=
  ⟨by rfl,
    helpersSwallowOrPropagate.2.2.2.2.2.1 none [("x", PyVal.vNone)] (by rfl)⟩

/-- Claim C4 counterexample: `PriceAdmin.description` called with
`obj=None` returns Python `None`, not the empty string. -/
theorem descriptionNoneOnMissingInput :
    PriceAdmin.description none = .ok PyVal.vNone ∧
    PyVal.vNone ≠ PyVal.vStr "" := by
  refine ⟨rfl, ?_⟩
  simp

/-- Claim C4 (amended): with `obj=None` or Python-falsy `data`, every
formatter returns the empty string, except that `PriceAdmin.description`,
`PriceAdmin.name`, `PriceAdmin.status` and `CustomerAdmin.status` return
Python `None` (their guard has no fall-through `return ""`), and the two
`customer_email` helpers ignore `data`, returning the related customer's
email, or `""` only when the customer is absent. -/
theorem formattersOnMissingInput :
    (AddressAdmin.customer_email none = .ok (.vStr "")) ∧
    (AddressAdmin.postal_code none = .ok (.vStr "")) ∧
    (AddressAdmin.status none = .ok (.vStr "")) ∧
    (PriceAdmin.billing_cycle none = .ok (.vStr "")) ∧
    (PriceAdmin.trial_period none = .ok (.vStr "")) ∧
    (PriceAdmin.unit_price none = .ok (.vStr "")) ∧
    (TransactionAdmin.customer_email none = .ok (.vStr "")) ∧
    (TransactionAdmin.payment_amount none = .ok (.vStr "")) ∧
    (TransactionAdmin.payment_method none = .ok (.vStr "")) ∧
    (TransactionAdmin.date_paid none = .ok (.vStr "")) ∧
    (∀ db, TransactionAdmin.products db none = .ok (.vStr "")) ∧
    (TransactionAdmin.status none = .ok (.vStr "")) ∧
    (PriceAdmin.description none = .ok PyVal.vNone) ∧
    (PriceAdmin.name none = .ok PyVal.vNone) ∧
    (PriceAdmin.status none = .ok PyVal.vNone) ∧
    (CustomerAdmin.status none = .ok PyVal.vNone) ∧
    (∀ o : DBObj, o.data.truthy = false →
      AddressAdmin.postal_code (some o) = .ok (.vStr "") ∧
      AddressAdmin.status (some o) = .ok (.vStr "") ∧
      PriceAdmin.billing_cycle (some o) = .ok (.vStr "") ∧
      PriceAdmin.trial_period (some o) = .ok (.vStr "") ∧
      PriceAdmin.unit_price (some o) = .ok (.vStr "") ∧
      TransactionAdmin.payment_amount (some o) = .ok (.vStr "") ∧
      TransactionAdmin.payment_method (some o) = .ok (.vStr "") ∧
      TransactionAdmin.date_paid (some o) = .ok (.vStr "") ∧
      (∀ db, TransactionAdmin.products db (some o) = .ok (.vStr "")) ∧
      TransactionAdmin.status (some o) = .ok (.vStr "") ∧
      PriceAdmin.description (some o) = .ok PyVal.vNone ∧
      PriceAdmin.name (some o) = .ok PyVal.vNone ∧
      PriceAdmin.status (some o) = .ok PyVal.vNone ∧
      CustomerAdmin.status (some o) = .ok PyVal.vNone) ∧
    (∀ o : DBObj, o.customer = none →
      AddressAdmin.customer_email (some o) = .ok (.vStr "") ∧
      TransactionAdmin.customer_email (some o) = .ok (.vStr "")) ∧
    (∀ (o : DBObj) (c : CustomerRec), o.customer = some c →
      AddressAdmin.customer_email (some o) = .ok (.vStr c.email) ∧
      TransactionAdmin.customer_email (some o) = .ok (.vStr c.email)) := by
  refine ⟨rfl, rfl, rfl, rfl, rfl, rfl, rfl, rfl, rfl, rfl, fun db => rfl, rfl,
    rfl, rfl, rfl, rfl, ?_, ?_, ?_⟩
  · intro o hf
    rcases o with ⟨d, c⟩
    replace hf : PyVal.truthy d = false := hf
    refine ⟨?_, ?_, ?_, ?_, ?_, ?_, ?_, ?_, ?_, ?_, ?_, ?_, ?_, ?_⟩ <;>
      simp [AddressAdmin.postal_code, AddressAdmin.status, PriceAdmin.billing_cycle,
        PriceAdmin.trial_period, PriceAdmin.unit_price,
        TransactionAdmin.payment_amount, TransactionAdmin.payment_method,
        TransactionAdmin.date_paid, TransactionAdmin.products,
        TransactionAdmin.status, PriceAdmin.description, PriceAdmin.name,
        PriceAdmin.status, CustomerAdmin.status, hf]
  · intro o hc
    rcases o with ⟨d, c⟩
    replace hc : c = none := hc
    subst hc
    exact ⟨rfl, rfl⟩
  · intro o c hc
    rcases o with ⟨d, c'⟩
    replace hc : c' = some c := hc
    subst hc
    exact ⟨rfl, rfl⟩

/-- Witness for the amended C4 at a concrete input: an object with
`data=None`, checked for `PriceAdmin.description` (Python `None`) and
`AddressAdmin.postal_code` (empty string). -/
theorem formattersOnMissingInput_witness :
    (PyVal.truthy PyVal.vNone = false) ∧
    PriceAdmin.description (some ⟨PyVal.vNone, none⟩) = .ok PyVal.vNone ∧
    AddressAdmin.postal_code (some ⟨PyVal.vNone, none⟩) = .ok (.vStr "") := by
  have h := formattersOnMissingInput
  obtain ⟨-, -, -, -, -, -, -, -, -, -, -, -, -, -, -, -, hfalsy, -⟩ := h
  obtain ⟨hpost, -, -, -, -, -, -, -, -, -, hdesc, -⟩ :=
    hfalsy ⟨PyVal.vNone, none⟩ rfl
  exact ⟨rfl, hdesc, hpost⟩

/-- Claim C6 counterexample: `TransactionAdmin.products`, called twice on
the same object but against different product tables, returns different
strings — it is not a pure function of the object alone. -/
theorem productsDependsOnTable :
    TransactionAdmin.products [] (some txItemsP1) ≠
      TransactionAdmin.products [⟨"p1", "Widget"⟩] (some txItemsP1) := by
  have h1 : TransactionAdmin.products [] (some txItemsP1) = .ok (.vStr "") := by rfl
  have h2 : TransactionAdmin.products [⟨"p1", "Widget"⟩] (some txItemsP1) =
      .ok (.vStr "Widget") := by rfl
  rw [h1, h2]
  simp

/-- Claim C6 (amended): every formatting helper except
`TransactionAdmin.products` is a pure function of the object passed to
it — its result is identical in any two external worlds; `products`
additionally reads the `Product` table, and its result is determined by
the object together with the table contents. -/
theorem helpersPureExceptProducts :
    (∀ (h : Helper) (obj : Option DBObj) (w w' : World), h ≠ .tx_products →
      (evalHelperW h obj w).1 = (evalHelperW h obj w').1) ∧
    (∀ (obj : Option DBObj) (w w' : World), w.productTable = w'.productTable →
      (evalHelperW .tx_products obj w).1 = (evalHelperW .tx_products obj w').1) := by
  constructor
  · intro h obj w w' hne
    cases h <;> first | rfl | exact absurd rfl hne
  · intro obj w w' he
    simp [evalHelperW, evalHelper, he]

/-- Witness for the amended C6 at a concrete input: `PriceAdmin.status`
(as `Helper.price_status`) evaluated in two different worlds. -/
theorem helpersPureExceptProducts_witness :
    (Helper.price_status ≠ Helper.tx_products) ∧
    (evalHelperW Helper.price_status (some txTotal1999) ⟨[], false⟩).1 =
      (evalHelperW Helper.price_status (some txTotal1999) ⟨[⟨"p1", "Widget"⟩], true⟩).1 :=
  ⟨by decide,
    helpersPureExceptProducts.1 Helper.price_status (some txTotal1999)
      ⟨[], false⟩ ⟨[⟨"p1", "Widget"⟩], true⟩ (by decide)⟩

/-- Claim C7: on data holding `{"unit_price": {"amount": a,
"currency_code": c}}` with `a` an integer-valued string of value `n`,
`PriceAdmin.unit_price` renders `a` divided by 100 (Python's decimal
rendering of `n / 100`), a space, and `c`; and on data holding
`{"billing_cycle": {"frequency": f, "interval": i}}`,
`PriceAdmin.billing_cycle` renders `"{f} {i}"`. -/
theorem priceFormattingWellFormed :
    (∀ (a : String) (n : Int) (c : String) (cust : Option CustomerRec),
      parseIntStr a = some n →
      PriceAdmin.unit_price (some ⟨.vDict [("unit_price",
          .vDict [("amount", .vStr a), ("currency_code", .vStr c)])], cust⟩) =
        .ok (.vStr (floatStr ⟨n, 100⟩ ++ " " ++ c))) ∧
    (∀ (f i : PyVal) (cust : Option CustomerRec),
      PriceAdmin.billing_cycle (some ⟨.vDict [("billing_cycle",
          .vDict [("frequency", f), ("interval", i)])], cust⟩) =
        .ok (.vStr (pyStr f ++ " " ++ pyStr i))) := by
  constructor
  · intro a n c cust h
    simp [PriceAdmin.unit_price, PyVal.truthy, PyVal.get, getPath, PyVal.getItem,
      pyInt, h, pyStr, pyRepr]
  · intro f i cust
    simp [PriceAdmin.billing_cycle, PyVal.truthy, PyVal.get, getPath, PyVal.getItem]

/-- Witness for C7 at a concrete input: amount `"1999"` and currency
`"USD"` yield `"19.99 USD"`. -/
theorem priceFormattingWellFormed_witness :
    (parseIntStr "1999" = some 1999) ∧
    PriceAdmin.unit_price (some ⟨.vDict [("unit_price",
        .vDict [("amount", .vStr "1999"), ("currency_code", .vStr "USD")])], none⟩) =
      .ok (.vStr "19.99 USD") := by
  refine ⟨by rfl, ?_⟩
  have h := priceFormattingWellFormed.1 "1999" 1999 "USD" none (by rfl)
  simpa using h

/-- Every normal return of `AddressAdmin.customer_email` is a string. -/
theorem address_customer_email_ok_isStr (obj : Option DBObj) (v : PyVal)
    (h : AddressAdmin.customer_email obj = .ok v) : v.isStr = true := by
  unfold AddressAdmin.customer_email at h
  repeat' split at h
  all_goals (simp only [Except.ok.injEq] at h; subst h; rfl)

/-- Every normal return of `TransactionAdmin.customer_email` is a
string. -/
theorem tx_customer_email_ok_isStr (obj : Option DBObj) (v : PyVal)
    (h : TransactionAdmin.customer_email obj = .ok v) : v.isStr = true := by
  unfold TransactionAdmin.customer_email at h
  repeat' split at h
  all_goals (simp only [Except.ok.injEq] at h; subst h; rfl)

/-- Every normal return of `PriceAdmin.billing_cycle` is a string. -/
theorem billing_cycle_ok_isStr (obj : Option DBObj) (v : PyVal)
    (h : PriceAdmin.billing_cycle obj = .ok v) : v.isStr = true := by
  unfold PriceAdmin.billing_cycle at h
  repeat' split at h
  all_goals (first
    | (simp only [Except.ok.injEq] at h; subst h; rfl)
    | simp at h)

/-- Every normal return of `PriceAdmin.trial_period` is a string. -/
theorem trial_period_ok_isStr (obj : Option DBObj) (v : PyVal)
    (h : PriceAdmin.trial_period obj = .ok v) : v.isStr = true := by
  unfold PriceAdmin.trial_period at h
  repeat' split at h
  all_goals (first
    | (simp only [Except.ok.injEq] at h; subst h; rfl)
    | simp at h)

/-- Every normal return of `PriceAdmin.unit_price` is a string. -/
theorem unit_price_ok_isStr (obj : Option DBObj) (v : PyVal)
    (h : PriceAdmin.unit_price obj = .ok v) : v.isStr = true := by
  unfold PriceAdmin.unit_price at h
  repeat' split at h
  all_goals (first
    | (simp only [Except.ok.injEq] at h; subst h; rfl)
    | simp at h)

/-- Every normal return of `TransactionAdmin.payment_method` is a
string. -/
theorem payment_method_ok_isStr (obj : Option DBObj) (v : PyVal)
    (h : TransactionAdmin.payment_method obj = .ok v) : v.isStr = true := by
  unfold TransactionAdmin.payment_method at h
  repeat' split at h
  all_goals (simp only [Except.ok.injEq] at h; subst h)
  all_goals rfl

/-- Every normal return of `TransactionAdmin.products` is a string. -/
theorem products_ok_isStr (db : List ProductRec) (obj : Option DBObj) (v : PyVal)
    (h : TransactionAdmin.products db obj = .ok v) : v.isStr = true := by
  unfold TransactionAdmin.products at h
  repeat' split at h
  all_goals (first
    | (simp only [Except.ok.injEq] at h; subst h; rfl)
    | simp at h)

/-- Every normal return of `TransactionAdmin.payment_amount` is the
empty string or a float. -/
theorem payment_amount_ok_type (obj : Option DBObj) (v : PyVal)
    (h : TransactionAdmin.payment_amount obj = .ok v) :
    v = .vStr "" ∨ ∃ f : PyFloat, v = .vFloat f := by
  unfold TransactionAdmin.payment_amount at h
  repeat' split at h
  all_goals (simp only [Except.ok.injEq] at h; subst h)
  all_goals (first
    | (left; rfl)
    | (right; exact ⟨_, rfl⟩))

/-- Claim C5 counterexample: on well-formed data
`TransactionAdmin.payment_amount` returns a float, not a string. -/
theorem paymentAmountReturnsFloat :
    TransactionAdmin.payment_amount (some txTotal1999) = .ok (.vFloat ⟨1999, 100⟩) ∧
    PyVal.isStr (.vFloat ⟨1999, 100⟩) = false := by
  exact ⟨by rfl, rfl⟩

/-- Claim C5 (amended): the string-building getters (`customer_email` of
Address and Transaction, `billing_cycle`, `trial_period`, `unit_price`,
`payment_method`, `products`) always return a Python `str` when they
return normally; `payment_amount` instead returns the empty string or a
float (counterexample above); the raw-extraction getters (`postal_code`,
the `status` helpers, `description`, `name`, `date_paid`) pass through
whatever value the JSON holds, so they return a string only when the
payload stores one. -/
theorem gettersReturnStringsExceptRaw :
    (∀ (obj : Option DBObj) (v : PyVal),
      AddressAdmin.customer_email obj = .ok v → v.isStr = true) ∧
    (∀ (obj : Option DBObj) (v : PyVal),
      TransactionAdmin.customer_email obj = .ok v → v.isStr = true) ∧
    (∀ (obj : Option DBObj) (v : PyVal),
      PriceAdmin.billing_cycle obj = .ok v → v.isStr = true) ∧
    (∀ (obj : Option DBObj) (v : PyVal),
      PriceAdmin.trial_period obj = .ok v → v.isStr = true) ∧
    (∀ (obj : Option DBObj) (v : PyVal),
      PriceAdmin.unit_price obj = .ok v → v.isStr = true) ∧
    (∀ (obj : Option DBObj) (v : PyVal),
      TransactionAdmin.payment_method obj = .ok v → v.isStr = true) ∧
    (∀ (db : List ProductRec) (obj : Option DBObj) (v : PyVal),
      TransactionAdmin.products db obj = .ok v → v.isStr = true) ∧
    (∀ (obj : Option DBObj) (v : PyVal),
      TransactionAdmin.payment_amount obj = .ok v →
      v = .vStr "" ∨ ∃ f : PyFloat, v = .vFloat f) :=
  ⟨address_customer_email_ok_isStr, tx_customer_email_ok_isStr,
    billing_cycle_ok_isStr, trial_period_ok_isStr, unit_price_ok_isStr,
    payment_method_ok_isStr, products_ok_isStr, payment_amount_ok_type⟩

/-- Witness for the amended C5 at a concrete input: `billing_cycle` on
well-formed data returns the string `"1 month"`. -/
theorem gettersReturnStringsExceptRaw_witness :
    (PriceAdmin.billing_cycle (some ⟨.vDict [("billing_cycle",
        .vDict [("frequency", .vInt 1), ("interval", .vStr "month")])], none⟩) =
      .ok (.vStr "1 month")) ∧
    PyVal.isStr (.vStr "1 month") = true :=
  ⟨by rfl,
    gettersReturnStringsExceptRaw.2.2.1 (some ⟨.vDict [("billing_cycle",
        .vDict [("frequency", .vInt 1), ("interval", .vStr "month")])], none⟩)
      (.vStr "1 month") (by rfl)⟩
